import Mathlib

/-!
Verification of the Treinamento Oliveira Garden study app (src/App.tsx, src/types).

This file shallowly embeds the app's non-UI logic:
* the progress store (`getInitialProgress` / `saveProgress`) and the streak
  computation inside the cycle page's `handleFinish`;
* the cycle page's timer effect, modelled as a deterministic render/effect loop
  (an effect re-runs exactly when one of its dependencies changed);
* the quiz flow (`handleAnswer`, `nextQuestion`, `finishQuiz`) and the quiz
  generator `generateDailyQuiz`;
* the catalog merge with custom images and the image-resize rule of
  `compressImage`.

Modelling conventions:
* ISO date strings "YYYY-MM-DD" are represented by their UTC day number
  `d : Nat`; the JS `new Date(s)` of such a string is UTC midnight, i.e. the
  timestamp `d * dayMs`, and `new Date().toISOString().split('T')[0]` of a
  timestamp `now` (in milliseconds) is `now / dayMs`.  String equality of two
  stored dates coincides with equality of their day numbers.
* `localStorage` is an opaque key-value store; the progress key holds a JSON
  value, modelled by the `Json` inductive below.  `JSON.stringify` /
  `JSON.parse` are modelled by `encodeProgress` / `decodeProgress` on that
  structured value (the string layer is the platform's JSON codec).
* The comparator-based pseudo-shuffle `.sort(() => 0.5 - Math.random())` always
  returns some permutation of its input; randomness is modelled relationally:
  the shuffled list (or a shuffle oracle) is a parameter, and theorems assume
  it is a permutation of the source list.
* JS floating-point division and `Math.ceil`/`Math.round` on the small values
  involved are modelled by exact rational/natural arithmetic.
-/

/-- Light requirement enum from src/types (values are the Portuguese strings). -/
inductive LightRequirement where
  | FULL_SUN
  | PARTIAL_SHADE
  | SHADE
deriving DecidableEq

/-- The string value of a `LightRequirement` enum member, as in src/types. -/
def lightStr : LightRequirement → String
  | .FULL_SUN => "Sol pleno"
  | .PARTIAL_SHADE => "Meia-sombra"
  | .SHADE => "Sombra"

/-- Plant catalog record from src/types. -/
structure Plant where
  id : String
  commonName : String
  scientificName : String
  light : LightRequirement
  category : String
  trivia : String
  imageUrl : String
deriving DecidableEq

instance : Inhabited Plant :=
  ⟨{ id := "", commonName := "", scientificName := "", light := .FULL_SUN,
     category := "", trivia := "", imageUrl := "" }⟩

/-- Session kind of a history entry ('CYCLE' | 'QUIZ' in src/types). -/
inductive SessionType where
  | CYCLE
  | QUIZ
deriving DecidableEq

/-- StudySession history entry from src/types (`date` is a day number, see
module conventions; `score` is present only for quiz sessions). -/
structure StudySession where
  date : Nat
  type : SessionType
  score : Option Nat
deriving DecidableEq

/-- UserProgress record from src/types. -/
structure UserProgress where
  plantsStudiedCount : Nat
  lastStudyDate : Option Nat
  streakDays : Nat
  quizTotalQuestions : Nat
  quizCorrectAnswers : Nat
  history : List StudySession
deriving DecidableEq

/-- The zero-valued default progress returned by `getInitialProgress` when
nothing is stored (App.tsx lines 36-43). -/
def initialProgress : UserProgress :=
  { plantsStudiedCount := 0
    lastStudyDate := none
    streakDays := 0
    quizTotalQuestions := 0
    quizCorrectAnswers := 0
    history := [] }

/-- Milliseconds per day, the divisor `1000 * 60 * 60 * 24` in `handleFinish`. -/
def dayMs : Nat := 1000 * 60 * 60 * 24

/-- Streak computation inside the cycle page's `handleFinish`
(App.tsx lines 289-300).  `lastStudyDate` is the stored date (day number),
`now` the current timestamp in milliseconds.  `new Date(lastStudyDate)` is UTC
midnight `last * dayMs`; `today` is the current UTC day `now / dayMs`;
`diffDays` is `Math.ceil(|now - last| / dayMs)`, which for nonnegative exact
arithmetic is `(diffTime + dayMs - 1) / dayMs`. -/
def checkStreak (lastStudyDate : Option Nat) (streakDays : Nat) (now : Nat) : Nat :=
  match lastStudyDate with
  | none => 1
  | some last =>
      let today := now / dayMs
      let diffTime := ((now : Int) - ((last * dayMs : Nat) : Int)).natAbs
      let diffDays := (diffTime + dayMs - 1) / dayMs
      if diffDays = 1 then streakDays + 1
      else if 1 < diffDays ∧ today ≠ last then 1
      else streakDays

/-- Cycle page component state: `isActive`, `isFinished`, `timeLeft`
(App.tsx lines 255-257). -/
structure CycleState where
  isActive : Bool
  isFinished : Bool
  timeLeft : Nat
deriving DecidableEq

/-- `handleFinish` of the cycle page (App.tsx lines 281-310): deactivates the
timer state, marks the session finished, and updates the stored progress
(studied count grows by the session's plant count, last date becomes today,
streak is recomputed, one CYCLE history entry is appended). -/
def handleFinish (nPlants : Nat) (s : CycleState) (p : UserProgress) (now : Nat) :
    CycleState × UserProgress :=
  let s' := { s with isActive := false, isFinished := true }
  let today := now / dayMs
  let streak := checkStreak p.lastStudyDate p.streakDays now
  (s', { p with
      plantsStudiedCount := p.plantsStudiedCount + nPlants
      lastStudyDate := some today
      streakDays := streak
      history := p.history ++ [{ date := today, type := .CYCLE, score := none }] })

/-- One execution of the timer effect body (App.tsx lines 269-279): while
active with time left it only (re)schedules the interval; otherwise, if the
countdown shows zero, it calls `handleFinish`. -/
def runEffectOnce (nPlants : Nat) (s : CycleState) (p : UserProgress) (now : Nat) :
    CycleState × UserProgress :=
  if s.isActive = true ∧ 0 < s.timeLeft then (s, p)
  else if s.timeLeft = 0 then handleFinish nPlants s p now
  else (s, p)

/-- React re-runs an effect whenever one of its dependencies (`isActive`,
`timeLeft`) changed since the last run; this loop executes the effect until its
dependencies are stable (fuel-bounded, which suffices for the finite runs
considered here). -/
def settleEffects (nPlants : Nat) : Nat → CycleState → UserProgress → Nat →
    CycleState × UserProgress
  | 0, s, p, _ => (s, p)
  | fuel + 1, s, p, now =>
      let sp := runEffectOnce nPlants s p now
      if sp.1.isActive = s.isActive ∧ sp.1.timeLeft = s.timeLeft then sp
      else settleEffects nPlants fuel sp.1 sp.2 now

/-- A run of the cycle session: each interval tick decrements `timeLeft` by one
(`setTimeLeft(prev => prev - 1)`), after which the effect re-runs (its
`timeLeft` dependency changed) until stable.  Ticks occur only while the
interval is scheduled, i.e. while the state is active. -/
def cycleRun (nPlants : Nat) : Nat → CycleState → UserProgress → Nat →
    CycleState × UserProgress
  | 0, s, p, _ => (s, p)
  | n + 1, s, p, now =>
      if s.isActive = true then
        let s' := { s with timeLeft := s.timeLeft - 1 }
        let sp := settleEffects nPlants 3 s' p now
        cycleRun nPlants n sp.1 sp.2 now
      else (s, p)

/-- JSON values, the structured results of `JSON.stringify`/`JSON.parse` on the
data stored under the progress key. -/
inductive Json where
  | null : Json
  | num : Int → Json
  | str : String → Json
  | arr : List Json → Json
  | obj : List (String × Json) → Json

/-- The string stored in a history entry's `type` field. -/
def typeName : SessionType → String
  | .CYCLE => "CYCLE"
  | .QUIZ => "QUIZ"

/-- Read a history entry's `type` field back. -/
def typeOfName (s : String) : Option SessionType :=
  if s = "CYCLE" then some .CYCLE
  else if s = "QUIZ" then some .QUIZ
  else none

/-- JSON field lookup in an object's field list. -/
def jField : List (String × Json) → String → Option Json
  | [], _ => none
  | (k, v) :: rest, key => if k = key then some v else jField rest key

/-- Read a nonnegative number from a JSON value. -/
def jNat : Option Json → Option Nat
  | some (Json.num n) => if n < 0 then none else some n.toNat
  | _ => none

/-- Read a string from a JSON value. -/
def jStr : Option Json → Option String
  | some (Json.str s) => some s
  | _ => none

/-- Serialization of a `StudySession`; `JSON.stringify` omits the `score`
field when it is absent. -/
def encodeSession (s : StudySession) : Json :=
  Json.obj ([("date", Json.num s.date), ("type", Json.str (typeName s.type))] ++
    (match s.score with
     | some n => [("score", Json.num n)]
     | none => []))

/-- Deserialization of a `StudySession` from its JSON object. -/
def decodeSession : Json → Option StudySession
  | Json.obj fs =>
      match jNat (jField fs "date"), jStr (jField fs "type") with
      | some d, some tn =>
          match typeOfName tn with
          | some ty =>
              match jField fs "score" with
              | none => some { date := d, type := ty, score := none }
              | some v =>
                  match jNat (some v) with
                  | some n => some { date := d, type := ty, score := some n }
                  | none => none
          | none => none
      | _, _ => none
  | _ => none

/-- Deserialization of a history array. -/
def decodeSessions : List Json → Option (List StudySession)
  | [] => some []
  | j :: rest =>
      match decodeSession j, decodeSessions rest with
      | some s, some ss => some (s :: ss)
      | _, _ => none

/-- `JSON.stringify(progress)`: the JSON value stored under the progress key by
`saveProgress` (App.tsx lines 46-48). -/
def encodeProgress (p : UserProgress) : Json :=
  Json.obj
    [("plantsStudiedCount", Json.num p.plantsStudiedCount),
     ("lastStudyDate",
       match p.lastStudyDate with
       | some d => Json.num d
       | none => Json.null),
     ("streakDays", Json.num p.streakDays),
     ("quizTotalQuestions", Json.num p.quizTotalQuestions),
     ("quizCorrectAnswers", Json.num p.quizCorrectAnswers),
     ("history", Json.arr (p.history.map encodeSession))]

/-- Reading a stored progress value back into a `UserProgress` record
(the fields `JSON.parse` returns for a value written by `encodeProgress`). -/
def decodeProgress : Json → Option UserProgress
  | Json.obj fs =>
      match jNat (jField fs "plantsStudiedCount"), jField fs "lastStudyDate",
            jNat (jField fs "streakDays"), jNat (jField fs "quizTotalQuestions"),
            jNat (jField fs "quizCorrectAnswers"), jField fs "history" with
      | some a, some lj, some b, some c, some d, some (Json.arr js) =>
          let lastD : Option (Option Nat) :=
            match lj with
            | Json.null => some none
            | Json.num n => if n < 0 then none else some (some n.toNat)
            | _ => none
          (match lastD, decodeSessions js with
           | some l, some hs =>
               some { plantsStudiedCount := a, lastStudyDate := l, streakDays := b,
                      quizTotalQuestions := c, quizCorrectAnswers := d, history := hs }
           | _, _ => none)
      | _, _, _, _, _, _ => none
  | _ => none

/-- `saveProgress` (App.tsx lines 46-48): overwrite the progress key with the
serialized record. -/
def saveProgress (p : UserProgress) : Option Json :=
  some (encodeProgress p)

/-- `getInitialProgress` (App.tsx lines 33-44): return the parsed stored record
if present, otherwise the zero-valued default.  (The source casts the parsed
JSON without validation; `decodeProgress` reads the same fields back.) -/
def getInitialProgress (store : Option Json) : UserProgress :=
  match store with
  | some j => (decodeProgress j).getD initialProgress
  | none => initialProgress

/-- Maximum image width in `compressImage` (App.tsx line 60). -/
def MAX_WIDTH : Nat := 600

/-- Dimension transformation of `compressImage` (App.tsx lines 58-70):
`scaleSize = MAX_WIDTH / w` and the canvas is resized exactly when
`scaleSize < 1`, i.e. when `MAX_WIDTH < w` (for `w = 0` the JS quotient is
infinite, so the original dimensions are kept, matching the else branch here).
The fractional height `h * scaleSize` is truncated by the canvas dimension
assignment, i.e. floor division. -/
def compressDims (w h : Nat) : Nat × Nat :=
  if MAX_WIDTH < w then (MAX_WIDTH, h * MAX_WIDTH / w) else (w, h)

/-- JS `x || y` on an optional string property: `undefined` and the empty
string are falsy and select the fallback. -/
def orElseStr (v : Option String) (fallback : String) : String :=
  match v with
  | some s => if s = "" then fallback else s
  | none => fallback

/-- Catalog merge (App.tsx lines 100-107): overlay the custom-image map onto
the base dataset, `imageUrl: customImages[p.id] || p.imageUrl`. -/
def mergeCatalog (base : List Plant) (customImages : String → Option String) :
    List Plant :=
  base.map fun p => { p with imageUrl := orElseStr (customImages p.id) p.imageUrl }

/-- `updatePlantImage` (App.tsx lines 109-121) on the custom-image map: store
the codec-produced blob under the plant's id. -/
def setCustomImage (customImages : String → Option String) (plantId blob : String) :
    String → Option String :=
  fun k => if k = plantId then some blob else customImages k

/-- `resetImage` (App.tsx lines 123-128) on the custom-image map: delete the
entry for the plant's id. -/
def resetCustomImage (customImages : String → Option String) (plantId : String) :
    String → Option String :=
  fun k => if k = plantId then none else customImages k

/-- `getRandomPlantsFromList` (App.tsx lines 133-136): copy the source list,
shuffle it with a random comparator, and take the first `count` elements.  The
shuffle's output is some permutation of the source; it is supplied here as the
argument `shuffled` and constrained by a permutation hypothesis in theorems. -/
def getRandomPlantsFromList (shuffled : List Plant) (count : Nat) : List Plant :=
  shuffled.take count

/-- Quiz question types from src/types. -/
inductive QType where
  | SCIENTIFIC_TO_COMMON
  | COMMON_TO_LIGHT
  | PHOTO_TO_COMMON
deriving DecidableEq

/-- QuizQuestion record from src/types. -/
structure QuizQuestion where
  id : Nat
  type : QType
  questionText : String
  imageUrl : Option String
  options : List String
  correctAnswer : String
deriving DecidableEq

instance : Inhabited QuizQuestion :=
  ⟨{ id := 0, type := .SCIENTIFIC_TO_COMMON, questionText := "", imageUrl := none,
     options := [], correctAnswer := "" }⟩

/-- `generateDailyQuiz` (App.tsx lines 618-652).  The three sampled lists are
the outputs of the three `getRandomPlantsFromList` shuffles, and `shuffle` is
the option-shuffling oracle for `.sort(() => Math.random() - 0.5)`; theorems
constrain them to be permutations. -/
def generateDailyQuiz (shuffle : List String → List String)
    (q1Shuffled q2Shuffled q3Shuffled : List Plant) : List QuizQuestion :=
  let q1Plant := getRandomPlantsFromList q1Shuffled 4
  let q2Plant := (getRandomPlantsFromList q2Shuffled 1).getD 0 default
  let q3Plant := getRandomPlantsFromList q3Shuffled 4
  let q1 : QuizQuestion :=
    { id := 1
      type := .SCIENTIFIC_TO_COMMON
      questionText := "Qual o nome popular da planta " ++
        (q1Plant.getD 0 default).scientificName ++ "?"
      imageUrl := none
      correctAnswer := (q1Plant.getD 0 default).commonName
      options := shuffle (q1Plant.map fun p => p.commonName) }
  let q2 : QuizQuestion :=
    { id := 2
      type := .COMMON_TO_LIGHT
      questionText := "Qual a luminosidade ideal para a planta " ++
        q2Plant.commonName ++ "?"
      imageUrl := none
      correctAnswer := lightStr q2Plant.light
      options := shuffle ([LightRequirement.FULL_SUN, .PARTIAL_SHADE, .SHADE].map lightStr) }
  let q3 : QuizQuestion :=
    { id := 3
      type := .PHOTO_TO_COMMON
      questionText := "Qual o nome desta planta?"
      imageUrl := some (q3Plant.getD 0 default).imageUrl
      correctAnswer := (q3Plant.getD 0 default).commonName
      options := shuffle (q3Plant.map fun p => p.commonName) }
  [q1, q2, q3]

/-- Quiz page component state (App.tsx lines 605-610). -/
structure QuizState where
  currentQIndex : Nat
  score : Nat
  isFinished : Bool
  selectedOption : Option String
  isAnswered : Bool
deriving DecidableEq

/-- Initial quiz page state. -/
def quizInit : QuizState :=
  { currentQIndex := 0, score := 0, isFinished := false, selectedOption := none,
    isAnswered := false }

/-- `handleAnswer` (App.tsx lines 654-662): ignore clicks once answered; record
the selection, lock the question, and bump the score when the option matches
the current question's correct answer. -/
def handleAnswer (questions : List QuizQuestion) (s : QuizState) (option : String) :
    QuizState :=
  if s.isAnswered = true then s
  else
    let s' := { s with selectedOption := some option, isAnswered := true }
    if option = (questions.getD s.currentQIndex default).correctAnswer then
      { s' with score := s'.score + 1 }
    else s'

/-- `finishQuiz` (App.tsx lines 674-691): mark finished and persist the updated
progress: totals grow by 3 and by the session score, and one QUIZ history
entry carrying the score is appended.  (`finalScore` is computed but unused in
the source.) -/
def finishQuiz (questions : List QuizQuestion) (s : QuizState) (p : UserProgress)
    (today : Nat) : QuizState × UserProgress :=
  let _finalScore := s.score +
    (if s.selectedOption = some (questions.getD s.currentQIndex default).correctAnswer
     then 1 else 0)
  ({ s with isFinished := true },
   { p with
      quizTotalQuestions := p.quizTotalQuestions + 3
      quizCorrectAnswers := p.quizCorrectAnswers + s.score
      history := p.history ++ [{ date := today, type := .QUIZ, score := some s.score }] })

/-- `nextQuestion` (App.tsx lines 664-672): advance and unlock, or finish after
the third question. -/
def nextQuestion (questions : List QuizQuestion) (s : QuizState) (p : UserProgress)
    (today : Nat) : QuizState × UserProgress :=
  if s.currentQIndex < 2 then
    ({ s with currentQIndex := s.currentQIndex + 1, selectedOption := none,
              isAnswered := false }, p)
  else finishQuiz questions s p today

/-- Answering the currently shown question with its own correct answer. -/
def answerCorrectly (questions : List QuizQuestion) (s : QuizState) : QuizState :=
  handleAnswer questions s ((questions.getD s.currentQIndex default).correctAnswer)

/-- The all-correct quiz session: answer each of the three questions correctly
and advance each time (the final advance triggers `finishQuiz`). -/
def runAllCorrect (questions : List QuizQuestion) (p : UserProgress) (today : Nat) :
    QuizState × UserProgress :=
  let s1 := answerCorrectly questions quizInit
  let sp2 := nextQuestion questions s1 p today
  let s3 := answerCorrectly questions sp2.1
  let sp4 := nextQuestion questions s3 sp2.2 today
  let s5 := answerCorrectly questions sp4.1
  nextQuestion questions s5 sp4.2 today

/-- Quiz accuracy shown on the progress dashboard (App.tsx lines 776-778):
`Math.round((correct / total) * 100)` guarded by `total > 0`, else 0. -/
def quizAccuracy (p : UserProgress) : Int :=
  if 0 < p.quizTotalQuestions then
    round (((p.quizCorrectAnswers : ℚ) / (p.quizTotalQuestions : ℚ)) * 100)
  else 0

/-- Concrete plant records used as witnesses. -/
def mkPlant (i c sci : String) (l : LightRequirement) : Plant :=
  { id := i, commonName := c, scientificName := sci, light := l,
    category := "Jardim", trivia := "t", imageUrl := "img-" ++ i }

/-- A concrete plant record used as a witness. -/
def plantA : Plant := mkPlant "p1" "Rosa" "Rosa gallica" .FULL_SUN

/-- A concrete catalog of four plants with pairwise-distinct common names. -/
def plants4 : List Plant :=
  [plantA,
   mkPlant "p2" "Samambaia" "Nephrolepis exaltata" .SHADE,
   mkPlant "p3" "Lirio" "Lilium candidum" .PARTIAL_SHADE,
   mkPlant "p4" "Hortensia" "Hydrangea macrophylla" .PARTIAL_SHADE]

/-- A concrete catalog in which two distinct plants share a common name. -/
def dupPlants : List Plant :=
  [mkPlant "d1" "Rosa" "Rosa gallica" .FULL_SUN,
   mkPlant "d2" "Rosa" "Rosa chinensis" .PARTIAL_SHADE,
   mkPlant "d3" "Samambaia" "Nephrolepis exaltata" .SHADE,
   mkPlant "d4" "Lirio" "Lilium candidum" .FULL_SUN]

/-- A concrete three-question quiz (the one generated from `plants4` with the
identity shuffle). -/
def quiz3 : List QuizQuestion :=
  generateDailyQuiz id plants4 plants4 plants4

/-- The i-th question of a generated quiz. -/
def quizQ (shuffle : List String → List String)
    (q1Shuffled q2Shuffled q3Shuffled : List Plant) (i : Nat) : QuizQuestion :=
  (generateDailyQuiz shuffle q1Shuffled q2Shuffled q3Shuffled).getD i default

/-- A concrete progress record with quiz totals 3 of 4. -/
def p75 : UserProgress :=
  { initialProgress with quizTotalQuestions := 4, quizCorrectAnswers := 3 }

/-!  Theorems  -/

/-- Claim C1.  The claim's same-calendar-day case fails on the code: with the
stored last-study date equal to today's calendar day (day 0) and the
completion at noon of that day, the elapsed time since UTC midnight is half a
day, so `diffDays = ceil(0.5) = 1` and the streak is incremented from 5 to 6,
whereas the claim says a completion on the same calendar day leaves the streak
unchanged.  The first conjunct shows the input really is a same-calendar-day
completion. -/
theorem streak_same_day_increments :
    43200000 / dayMs = 0 ∧ checkStreak (some 0) 5 43200000 = 6 := by
  constructor
  · rfl
  · rfl

/-- Claim C2.  Letting the 180-second countdown run out does not record the
completion exactly once: the effect calls `handleFinish`, which sets
`isActive := false`; that dependency change re-runs the effect, which still
sees `timeLeft = 0` and calls `handleFinish` a second time.  Starting from a
fresh session over 2 plants and an empty progress record, the run ends
finished but with two CYCLE history entries and a studied-count of 4. -/
theorem cycle_finish_fires_twice :
    (cycleRun 2 180 ⟨true, false, 180⟩ initialProgress 43200000).1.isFinished = true ∧
    (cycleRun 2 180 ⟨true, false, 180⟩ initialProgress 43200000).2.history.length = 2 ∧
    (cycleRun 2 180 ⟨true, false, 180⟩ initialProgress 43200000).2.plantsStudiedCount = 4 := by
  refine ⟨rfl, rfl, rfl⟩

/-- Claim C6.  The resize rule of `compressImage`: an input wider than
`MAX_WIDTH` is resized to width exactly `MAX_WIDTH` with height
`h * MAX_WIDTH / w` (the aspect ratio preserved within rounding, as the two
bounds state); an input of width at most `MAX_WIDTH` keeps its dimensions. -/
theorem compress_resize_rule (w h : Nat) :
    (MAX_WIDTH < w →
      (compressDims w h).1 = MAX_WIDTH ∧
      (compressDims w h).2 = h * MAX_WIDTH / w ∧
      w * (compressDims w h).2 ≤ h * MAX_WIDTH ∧
      h * MAX_WIDTH < w * ((compressDims w h).2 + 1)) ∧
    (w ≤ MAX_WIDTH → compressDims w h = (w, h)) := by
  constructor
  · intro hlt
    have hw : 0 < w := lt_trans (by norm_num [MAX_WIDTH]) hlt
    have h1 : compressDims w h = (MAX_WIDTH, h * MAX_WIDTH / w) := by
      simp [compressDims, hlt]
    rw [h1]
    refine ⟨rfl, rfl, ?_, ?_⟩
    · simpa [Nat.mul_comm] using Nat.div_mul_le_self (h * MAX_WIDTH) w
    · have hmod : h * MAX_WIDTH % w < w := Nat.mod_lt _ hw
      have hdm : w * (h * MAX_WIDTH / w) + h * MAX_WIDTH % w = h * MAX_WIDTH :=
        Nat.div_add_mod (h * MAX_WIDTH) w
      calc h * MAX_WIDTH = w * (h * MAX_WIDTH / w) + h * MAX_WIDTH % w := hdm.symm
        _ < w * (h * MAX_WIDTH / w) + w := Nat.add_lt_add_left hmod _
        _ = w * (h * MAX_WIDTH / w + 1) := by ring
  · intro hle
    simp [compressDims, Nat.not_lt.mpr hle]

/-- Witness for the resize rule at a concrete 1200 by 800 input. -/
theorem compress_resize_rule_witness :
    MAX_WIDTH < 1200 ∧
    (compressDims 1200 800).1 = MAX_WIDTH ∧
    (compressDims 1200 800).2 = 800 * MAX_WIDTH / 1200 ∧
    1200 * (compressDims 1200 800).2 ≤ 800 * MAX_WIDTH ∧
    800 * MAX_WIDTH < 1200 * ((compressDims 1200 800).2 + 1) :=
  ⟨by decide, (compress_resize_rule 1200 800).1 (by decide)⟩

/-- Claim C8.  Quiz completion changes neither the streak, nor the last study
date, nor the studied-count: it only adds 3 to the question total, adds the
session score to the correct total, and appends one QUIZ history entry. -/
theorem quiz_completion_frame (questions : List QuizQuestion) (s : QuizState)
    (p : UserProgress) (today : Nat) :
    (finishQuiz questions s p today).2.streakDays = p.streakDays ∧
    (finishQuiz questions s p today).2.lastStudyDate = p.lastStudyDate ∧
    (finishQuiz questions s p today).2.plantsStudiedCount = p.plantsStudiedCount ∧
    (finishQuiz questions s p today).2.quizTotalQuestions = p.quizTotalQuestions + 3 ∧
    (finishQuiz questions s p today).2.quizCorrectAnswers = p.quizCorrectAnswers + s.score ∧
    (finishQuiz questions s p today).2.history =
      p.history ++ [{ date := today, type := .QUIZ, score := some s.score }] :=
  ⟨rfl, rfl, rfl, rfl, rfl, rfl⟩

/-- Claim C10.  The dashboard accuracy is 0 when no quiz question was ever
asked (no division is performed), and otherwise is the rounded percentage; it
is never negative. -/
theorem quiz_accuracy_safe (p : UserProgress) :
    (p.quizTotalQuestions = 0 → quizAccuracy p = 0) ∧
    (0 < p.quizTotalQuestions →
      quizAccuracy p =
        round (((p.quizCorrectAnswers : ℚ) / (p.quizTotalQuestions : ℚ)) * 100)) ∧
    0 ≤ quizAccuracy p := by
  refine ⟨?_, ?_, ?_⟩
  · intro h
    simp [quizAccuracy, h]
  · intro h
    simp [quizAccuracy, h]
  · unfold quizAccuracy
    split
    · rw [round_eq]
      have hx : (0 : ℚ) ≤ (p.quizCorrectAnswers : ℚ) / (p.quizTotalQuestions : ℚ) * 100 := by
        positivity
      calc (0 : Int) = ⌊(0 : ℚ)⌋ := Int.floor_zero.symm
        _ ≤ ⌊(p.quizCorrectAnswers : ℚ) / (p.quizTotalQuestions : ℚ) * 100 + 1 / 2⌋ :=
          Int.floor_le_floor (by linarith)
    · exact le_refl 0

/-- Witness for the accuracy computation: 0 of 0 gives 0, and 3 of 4 is the
rounded percentage. -/
theorem quiz_accuracy_safe_witness :
    quizAccuracy initialProgress = 0 ∧
    (0 < p75.quizTotalQuestions ∧
      quizAccuracy p75 =
        round (((p75.quizCorrectAnswers : ℚ) / (p75.quizTotalQuestions : ℚ)) * 100)) :=
  ⟨(quiz_accuracy_safe initialProgress).1 rfl,
   ⟨by decide, (quiz_accuracy_safe p75).2.1 (by decide)⟩⟩

/-- Claim C3.  Answering all three questions of a three-question quiz correctly
and finishing persists a record with both quiz totals increased by 3 and one
appended QUIZ history entry carrying score 3: the score read by `finishQuiz`
includes the third answer, because the score update of `handleAnswer` is
committed (a re-render happens) before the user can click through to
`finishQuiz`. -/
theorem quiz_all_correct_records (questions : List QuizQuestion) (p : UserProgress)
    (today : Nat) (_hlen : questions.length = 3) :
    (runAllCorrect questions p today).1.isFinished = true ∧
    (runAllCorrect questions p today).2.quizCorrectAnswers = p.quizCorrectAnswers + 3 ∧
    (runAllCorrect questions p today).2.quizTotalQuestions = p.quizTotalQuestions + 3 ∧
    (runAllCorrect questions p today).2.history =
      p.history ++ [{ date := today, type := .QUIZ, score := some 3 }] := by
  refine ⟨?_, ?_, ?_, ?_⟩ <;>
    simp [runAllCorrect, answerCorrectly, handleAnswer, nextQuestion, finishQuiz, quizInit]

/-- Witness: the concrete quiz `quiz3` has three questions, and the all-correct
run on a fresh record persists 3 correct answers. -/
theorem quiz_all_correct_records_witness :
    quiz3.length = 3 ∧
    (runAllCorrect quiz3 initialProgress 0).2.quizCorrectAnswers =
      initialProgress.quizCorrectAnswers + 3 :=
  ⟨rfl, (quiz_all_correct_records quiz3 initialProgress 0 rfl).2.1⟩

/-- Reading a nonnegative JSON number back gives the original natural. -/
theorem jNat_natCast (n : Nat) : jNat (some (Json.num (n : Int))) = some n := by
  simp [jNat, Int.not_lt.mpr (Int.natCast_nonneg n)]

/-- A serialized history entry decodes to itself. -/
theorem decodeSession_encode (s : StudySession) :
    decodeSession (encodeSession s) = some s := by
  rcases s with ⟨d, ty, sc⟩
  rcases sc with _ | n <;> rcases ty <;>
    simp [encodeSession, decodeSession, jField, jStr, typeName, typeOfName, jNat_natCast]

/-- A serialized history decodes to itself. -/
theorem decodeSessions_encode (l : List StudySession) :
    decodeSessions (l.map encodeSession) = some l := by
  induction l with
  | nil => rfl
  | cons s rest ih => simp [decodeSessions, decodeSession_encode, ih]

/-- A serialized progress record decodes to itself. -/
theorem decodeProgress_encode (p : UserProgress) :
    decodeProgress (encodeProgress p) = some p := by
  rcases p with ⟨a, last, b, c, d, hs⟩
  rcases last with _ | ld <;>
    simp [encodeProgress, decodeProgress, jField, jNat_natCast, decodeSessions_encode,
      Int.not_lt.mpr (Int.natCast_nonneg _)]

/-- Claim C7.  Persistence round-trips: saving any progress record and loading
it back returns the same record (all counts, last date, streak and history
preserved). -/
theorem progress_roundtrip (p : UserProgress) :
    getInitialProgress (saveProgress p) = p := by
  simp [getInitialProgress, saveProgress, decodeProgress_encode]

/-- Claim C5.  Catalog merge is a per-position overlay: at every position of
the base dataset, a plant with no custom entry keeps its base image reference;
after `setCustomImage` with a (nonempty, codec-produced) blob the merged
reference equals the blob; after a subsequent `resetCustomImage` it reverts to
the base reference; the merge preserves length and position and changes no
field other than the image reference. -/
theorem merge_overlay_correct (base : List Plant)
    (customImages : String → Option String) (i : Nat) (p : Plant)
    (hp : base[i]? = some p) :
    (customImages p.id = none →
      ((mergeCatalog base customImages)[i]?).map Plant.imageUrl = some p.imageUrl) ∧
    (∀ blob : String, blob ≠ "" →
      ((mergeCatalog base (setCustomImage customImages p.id blob))[i]?).map
        Plant.imageUrl = some blob) ∧
    (∀ c2 : String → Option String,
      ((mergeCatalog base (resetCustomImage c2 p.id))[i]?).map Plant.imageUrl =
        some p.imageUrl) ∧
    (mergeCatalog base customImages).length = base.length ∧
    ((mergeCatalog base customImages)[i]?).map Plant.id = some p.id ∧
    ((mergeCatalog base customImages)[i]?).map Plant.commonName = some p.commonName ∧
    ((mergeCatalog base customImages)[i]?).map Plant.scientificName = some p.scientificName ∧
    ((mergeCatalog base customImages)[i]?).map Plant.light = some p.light ∧
    ((mergeCatalog base customImages)[i]?).map Plant.category = some p.category ∧
    ((mergeCatalog base customImages)[i]?).map Plant.trivia = some p.trivia := by
  have hm : ∀ ci : String → Option String,
      (mergeCatalog base ci)[i]? =
        some { p with imageUrl := orElseStr (ci p.id) p.imageUrl } := by
    intro ci
    simp [mergeCatalog, List.getElem?_map, hp]
  refine ⟨?_, ?_, ?_, ?_, ?_, ?_, ?_, ?_, ?_, ?_⟩
  · intro hnone
    simp [hm, orElseStr, hnone]
  · intro blob hblob
    simp [hm, setCustomImage, orElseStr, hblob]
  · intro c2
    simp [hm, resetCustomImage, orElseStr]
  · simp [mergeCatalog]
  all_goals simp [hm]

/-- Witness for the merge overlay at position 0 of the concrete catalog. -/
theorem merge_overlay_correct_witness :
    (((mergeCatalog plants4 fun _ => none)[0]?).map Plant.imageUrl =
      some plantA.imageUrl) ∧
    (((mergeCatalog plants4
        (setCustomImage (fun _ => none) plantA.id "data:image/jpeg;base64,x"))[0]?).map
      Plant.imageUrl = some "data:image/jpeg;base64,x") :=
  ⟨(merge_overlay_correct plants4 (fun _ => none) 0 plantA rfl).1 rfl,
   (merge_overlay_correct plants4 (fun _ => none) 0 plantA rfl).2.1
     "data:image/jpeg;base64,x" (by decide)⟩

/-- Claim C9.  `getRandomPlantsFromList` returns `min count n` plants (where
`n` is the source length), drawn from distinct positions of the source (its
output is a sub-permutation of the source, so each input element is used at
most once), hence the sample is duplicate-free whenever the source list is;
the source list itself is copied, never mutated. -/
theorem sample_plants_spec (sourcePlants shuffled : List Plant) (count : Nat)
    (hperm : shuffled.Perm sourcePlants) :
    (getRandomPlantsFromList shuffled count).length = min count sourcePlants.length ∧
    (getRandomPlantsFromList shuffled count).Subperm sourcePlants ∧
    (sourcePlants.Nodup → (getRandomPlantsFromList shuffled count).Nodup) := by
  refine ⟨?_, ?_, ?_⟩
  · simp [getRandomPlantsFromList, List.length_take, hperm.length_eq]
  · exact ((List.take_sublist count shuffled).subperm).trans hperm.subperm
  · intro h
    exact (hperm.symm.nodup h).sublist (List.take_sublist count shuffled)

/-- Witness: sampling 2 from the concrete 4-plant catalog. -/
theorem sample_plants_spec_witness :
    (getRandomPlantsFromList plants4 2).length = min 2 plants4.length ∧
    (getRandomPlantsFromList plants4 2).Subperm plants4 ∧
    (getRandomPlantsFromList plants4 2).Nodup :=
  ⟨(sample_plants_spec plants4 plants4 2 (List.Perm.refl plants4)).1,
   (sample_plants_spec plants4 plants4 2 (List.Perm.refl plants4)).2.1,
   (sample_plants_spec plants4 plants4 2 (List.Perm.refl plants4)).2.2 (by decide)⟩

/-- Helper for the two name-based question types: when 4 plants are sampled
from a catalog of at least 4 plants whose common names are pairwise distinct,
the shuffled option set has exactly 4 options and contains the first sampled
plant's common name (the designated correct answer) exactly once. -/
theorem nameOptions_spec (plants qS : List Plant) (shuffle : List String → List String)
    (hshuf : ∀ l, (shuffle l).Perm l) (hq : qS.Perm plants)
    (hlen : 4 ≤ plants.length)
    (hnodup : (plants.map fun p => p.commonName).Nodup) :
    (shuffle ((qS.take 4).map fun p => p.commonName)).length = 4 ∧
    (shuffle ((qS.take 4).map fun p => p.commonName)).count
      (((qS.take 4).getD 0 default).commonName) = 1 := by
  have hlenq : 4 ≤ qS.length := by rw [hq.length_eq]; exact hlen
  have hnodup' : ((qS.take 4).map fun p => p.commonName).Nodup := by
    rw [List.map_take]
    exact (((hq.map fun p => p.commonName).symm).nodup hnodup).sublist
      (List.take_sublist 4 _)
  have h0 : 0 < (qS.take 4).length := by
    rw [List.length_take]
    omega
  have hmem : ((qS.take 4).getD 0 default).commonName ∈
      (qS.take 4).map fun p => p.commonName := by
    apply List.mem_map_of_mem
    rw [List.getD_eq_getElem _ _ h0]
    exact List.getElem_mem h0
  constructor
  · rw [(hshuf _).length_eq, List.length_map, List.length_take]
    omega
  · rw [(hshuf _).count_eq]
    exact List.count_eq_one_of_mem hnodup' hmem

/-- Claim C4, amended.  Provided the catalog holds at least 4 plants with
pairwise-distinct common names, every generated quiz has well-shaped option
sets: the SCIENTIFIC_TO_COMMON and PHOTO_TO_COMMON questions have exactly 4
options of which exactly one equals the designated correct answer, and the
COMMON_TO_LIGHT question's options are a permutation of the 3 light values
(each appearing exactly once) with the correct answer among them. -/
theorem quiz_option_sets_amended (plants q1S q2S q3S : List Plant)
    (shuffle : List String → List String)
    (hshuf : ∀ l, (shuffle l).Perm l)
    (h1 : q1S.Perm plants) (h3 : q3S.Perm plants)
    (hlen : 4 ≤ plants.length)
    (hnodup : (plants.map fun p => p.commonName).Nodup) :
    ((quizQ shuffle q1S q2S q3S 0).options.length = 4 ∧
     (quizQ shuffle q1S q2S q3S 0).options.count
       (quizQ shuffle q1S q2S q3S 0).correctAnswer = 1) ∧
    ((quizQ shuffle q1S q2S q3S 2).options.length = 4 ∧
     (quizQ shuffle q1S q2S q3S 2).options.count
       (quizQ shuffle q1S q2S q3S 2).correctAnswer = 1) ∧
    ((quizQ shuffle q1S q2S q3S 1).options.Perm
       ([LightRequirement.FULL_SUN, .PARTIAL_SHADE, .SHADE].map lightStr) ∧
     (quizQ shuffle q1S q2S q3S 1).options.Nodup ∧
     (quizQ shuffle q1S q2S q3S 1).correctAnswer ∈ (quizQ shuffle q1S q2S q3S 1).options) := by
  have e0 : quizQ shuffle q1S q2S q3S 0 =
      { id := 1
        type := .SCIENTIFIC_TO_COMMON
        questionText := "Qual o nome popular da planta " ++
          ((q1S.take 4).getD 0 default).scientificName ++ "?"
        imageUrl := none
        correctAnswer := ((q1S.take 4).getD 0 default).commonName
        options := shuffle ((q1S.take 4).map fun p => p.commonName) } := by
    simp [quizQ, generateDailyQuiz, getRandomPlantsFromList]
  have e2 : quizQ shuffle q1S q2S q3S 2 =
      { id := 3
        type := .PHOTO_TO_COMMON
        questionText := "Qual o nome desta planta?"
        imageUrl := some ((q3S.take 4).getD 0 default).imageUrl
        correctAnswer := ((q3S.take 4).getD 0 default).commonName
        options := shuffle ((q3S.take 4).map fun p => p.commonName) } := by
    simp [quizQ, generateDailyQuiz, getRandomPlantsFromList]
  have e1 : quizQ shuffle q1S q2S q3S 1 =
      { id := 2
        type := .COMMON_TO_LIGHT
        questionText := "Qual a luminosidade ideal para a planta " ++
          ((q2S.take 1).getD 0 default).commonName ++ "?"
        imageUrl := none
        correctAnswer := lightStr ((q2S.take 1).getD 0 default).light
        options := shuffle ([LightRequirement.FULL_SUN, .PARTIAL_SHADE, .SHADE].map lightStr) } := by
    simp [quizQ, generateDailyQuiz, getRandomPlantsFromList]
  refine ⟨?_, ?_, ?_, ?_, ?_⟩
  · rw [e0]
    exact nameOptions_spec plants q1S shuffle hshuf h1 hlen hnodup
  · rw [e2]
    exact nameOptions_spec plants q3S shuffle hshuf h3 hlen hnodup
  · rw [e1]
    exact hshuf _
  · rw [e1]
    exact ((hshuf _).nodup_iff).mpr (by decide)
  · rw [e1]
    rw [(hshuf _).mem_iff]
    apply List.mem_map_of_mem
    cases ((q2S.take 1).getD 0 default).light <;> decide

/-- Claim C4 counterexample: with a catalog in which two distinct plants share
the common name "Rosa" (the generator never deduplicates display names), a
generated quiz's SCIENTIFIC_TO_COMMON question has an option set containing
the designated correct answer twice, not exactly once, refuting the claim as
stated (the identity shuffle and the catalog itself are legitimate outcomes of
the random shuffles). -/
theorem quiz_duplicate_option_counterexample :
    (quizQ id dupPlants dupPlants dupPlants 0).options.length = 4 ∧
    (quizQ id dupPlants dupPlants dupPlants 0).options.count
      (quizQ id dupPlants dupPlants dupPlants 0).correctAnswer = 2 ∧
    ¬ (quizQ id dupPlants dupPlants dupPlants 0).options.count
        (quizQ id dupPlants dupPlants dupPlants 0).correctAnswer = 1 := by
  refine ⟨rfl, rfl, by decide⟩

/-- Witness for the amended option-set theorem on the concrete catalog of four
distinctly-named plants with the identity shuffle. -/
theorem quiz_option_sets_amended_witness :
    ((quizQ id plants4 plants4 plants4 0).options.length = 4 ∧
     (quizQ id plants4 plants4 plants4 0).options.count
       (quizQ id plants4 plants4 plants4 0).correctAnswer = 1) ∧
    ((quizQ id plants4 plants4 plants4 2).options.length = 4 ∧
     (quizQ id plants4 plants4 plants4 2).options.count
       (quizQ id plants4 plants4 plants4 2).correctAnswer = 1) ∧
    ((quizQ id plants4 plants4 plants4 1).options.Perm
       ([LightRequirement.FULL_SUN, .PARTIAL_SHADE, .SHADE].map lightStr) ∧
     (quizQ id plants4 plants4 plants4 1).options.Nodup ∧
     (quizQ id plants4 plants4 plants4 1).correctAnswer ∈
       (quizQ id plants4 plants4 plants4 1).options) :=
  quiz_option_sets_amended plants4 plants4 plants4 plants4 id (fun l => List.Perm.refl l)
    (List.Perm.refl plants4) (List.Perm.refl plants4) (by decide) (by decide)
